import Mathlib

/-!
Verification of the Cloudflare Access authentication middleware
(`cfAccessMiddleware` and its helpers `getCloudflareJWKS`,
`verifyCloudflareAccessToken`, `shouldBypassAuth`, `validateServiceToken`).

The TypeScript source is embedded shallowly:
  * environment configuration (`Env`) becomes a structure of `Bool` /
    `Option String` fields, with JavaScript string truthiness modelled by
    `strTruthy` (absent or empty means falsy);
  * the module-level mutable cache (`cachedJWKS`, `jwksCacheTime`) becomes an
    explicit `CacheState` value threaded through the functions;
  * the outbound network call (`fetch` of the JWKS endpoint) becomes an
    explicit `FetchResult` parameter describing what the network would have
    answered on this call, and each function additionally reports how many
    times it performed that call (0 or 1);
  * the external cryptographic verifier `jose.jwtVerify` becomes an oracle
    parameter `jwtVerify : String -> JSONWebKeySet -> String -> String ->
    Except String JWTPayload` (token, key set, issuer, audience); the
    middleware also reports how many times it invoked the oracle;
  * `return next()` / `res.status(403).json(...)` become the
    `MiddlewareResult` inductive, with the identity annotation attached to
    the request recorded in the `next` constructor.
-/

namespace CfAccess

/-- JavaScript truthiness of an optional string: `undefined`/`null` and the
empty string are falsy, every other string is truthy. -/
def strTruthy : Option String → Bool
  | none => false
  | some s => !(s == "")

/-- JavaScript `s.startsWith(p)`, as a character-list prefix test. -/
def jsStartsWith (s p : String) : Bool := p.data.isPrefixOf s.data

/-- JavaScript `s.endsWith(p)`, as a character-list suffix test. -/
def jsEndsWith (s p : String) : Bool := p.data.isSuffixOf s.data

/-- JavaScript `s.toLowerCase()` restricted to what Express header lookup
needs, as a character-wise map. -/
def jsToLower (s : String) : String := String.mk (s.data.map Char.toLower)

/-- A parsed JSON Web Key Set. The individual keys are opaque to the
middleware (it hands the whole set to `jose`), so they are modelled as an
opaque list. -/
structure JSONWebKeySet where
  keys : List String
deriving DecidableEq, Inhabited

/-- The configuration surface read by the middleware (`Env` in the source).
String-valued settings are `Option String` (absent = `undefined`). -/
structure Env where
  CF_ACCESS_ENABLED : Bool
  CF_ACCESS_TEAM_DOMAIN : Option String
  CF_ACCESS_AUD : Option String
  CF_ACCESS_BYPASS_PATHS : Option (List String)
  CF_ACCESS_SERVICE_TOKEN_ID : Option String
  CF_ACCESS_SERVICE_TOKEN_SECRET : Option String
deriving DecidableEq

/-- The module-level mutable state of the source file: `cachedJWKS` and
`jwksCacheTime` (milliseconds). -/
structure CacheState where
  cachedJWKS : Option JSONWebKeySet
  jwksCacheTime : Nat
deriving DecidableEq

/-- The constant `JWKS_CACHE_TTL = 60 * 60 * 1000` (one hour in milliseconds). -/
def JWKS_CACHE_TTL : Nat := 60 * 60 * 1000

/-- What the network answers when the middleware performs the JWKS fetch on
this call: a parsed body, a non-2xx response, a network error, or a body
that fails JSON parsing. -/
inductive FetchResult where
  | success (jwks : JSONWebKeySet)
  | httpError (status : Nat) (statusText : String)
  | networkError (msg : String)
  | malformedBody (msg : String)
deriving DecidableEq

/-- Errors thrown by `getCloudflareJWKS`: the configuration guard, or the
rethrown fetch failure. -/
inductive JWKSError where
  | teamDomainNotConfigured
  | httpError (status : Nat) (statusText : String)
  | networkError (msg : String)
  | malformedBody (msg : String)
deriving DecidableEq

/-- A `JWKSError` that originated from the fetch (as opposed to the missing
team-domain configuration). -/
def JWKSError.isFetchError : JWKSError → Bool
  | .teamDomainNotConfigured => false
  | _ => true

/-- A `FetchResult` describing a failed fetch attempt (non-2xx, network
error, or malformed body). -/
def FetchResult.isFailure : FetchResult → Bool
  | .success _ => false
  | _ => true

/-- The slow path of `getCloudflareJWKS` (everything after the cache check):
check `CF_ACCESS_TEAM_DOMAIN`, perform the fetch, on success store the new
set and timestamp, on failure rethrow without touching the cache. The
third component counts outbound network calls made. -/
def getCloudflareJWKSFetch (env : Env) (now : Nat) (fetch : FetchResult)
    (st : CacheState) : Except JWKSError JSONWebKeySet × CacheState × Nat :=
  if !strTruthy env.CF_ACCESS_TEAM_DOMAIN then
    (.error .teamDomainNotConfigured, st, 0)
  else
    match fetch with
    | .success jwks => (.ok jwks, ⟨some jwks, now⟩, 1)
    | .httpError s t => (.error (.httpError s t), st, 1)
    | .networkError m => (.error (.networkError m), st, 1)
    | .malformedBody m => (.error (.malformedBody m), st, 1)

/-- The function `getCloudflareJWKS`: return the cached key set when one exists and
`now - jwksCacheTime < JWKS_CACHE_TTL`, otherwise run the fetch path.
Returns the result, the new cache state, and the number of outbound
network calls made (0 or 1). -/
def getCloudflareJWKS (env : Env) (now : Nat) (fetch : FetchResult)
    (st : CacheState) : Except JWKSError JSONWebKeySet × CacheState × Nat :=
  match st.cachedJWKS with
  | some jwks =>
      if now - st.jwksCacheTime < JWKS_CACHE_TTL then (.ok jwks, st, 0)
      else getCloudflareJWKSFetch env now fetch st
  | none => getCloudflareJWKSFetch env now fetch st

/-- The claim set of a verified token, as read by the middleware
(`payload.email`, `payload.sub`, `payload.iat`, `payload.exp`; all
optional). -/
structure JWTPayload where
  email : Option String
  sub : Option String
  iat : Option Nat
  exp : Option Nat
deriving DecidableEq

/-- Errors thrown by `verifyCloudflareAccessToken`: the configuration
guard, a rethrown `getCloudflareJWKS` error, or a `jose.jwtVerify`
failure. -/
inductive VerifyError where
  | configMissing
  | jwksError (e : JWKSError)
  | joseError (msg : String)
deriving DecidableEq

/-- The function `verifyCloudflareAccessToken`: require `CF_ACCESS_TEAM_DOMAIN` and
`CF_ACCESS_AUD`, obtain the key set via `getCloudflareJWKS`, then call the
`jose.jwtVerify` oracle with the derived issuer and the configured
audience. Returns the result, the new cache state, the number of network
calls, and the number of oracle invocations. -/
def verifyCloudflareAccessToken (env : Env) (now : Nat) (fetch : FetchResult)
    (jwtVerify : String → JSONWebKeySet → String → String → Except String JWTPayload)
    (token : String) (st : CacheState) :
    Except VerifyError JWTPayload × CacheState × Nat × Nat :=
  if !strTruthy env.CF_ACCESS_TEAM_DOMAIN || !strTruthy env.CF_ACCESS_AUD then
    (.error .configMissing, st, 0, 0)
  else
    match getCloudflareJWKS env now fetch st with
    | (.ok jwks, st2, n) =>
        let issuer :=
          "https://" ++ env.CF_ACCESS_TEAM_DOMAIN.getD "" ++ ".cloudflareaccess.com"
        match jwtVerify token jwks issuer (env.CF_ACCESS_AUD.getD "") with
        | .ok payload => (.ok payload, st2, n, 1)
        | .error m => (.error (.joseError m), st2, n, 1)
    | (.error e, st2, n) => (.error (.jwksError e), st2, n, 0)

/-- The loop body of `shouldBypassAuth` over the configured rule list:
exact string equality, or, for a rule ending in the wildcard marker, a
match of the path against the rule with its final character sliced off. -/
def isBypassed (path : String) : List String → Bool
  | [] => false
  | bypassPath :: rest =>
      if path == bypassPath then true
      else if jsEndsWith bypassPath "*" && jsStartsWith path (bypassPath.dropRight 1) then
        true
      else isBypassed path rest

/-- The function `shouldBypassAuth`: run the rule loop over
`Env.CF_ACCESS_BYPASS_PATHS || []`. -/
def shouldBypassAuth (env : Env) (path : String) : Bool :=
  isBypassed path (env.CF_ACCESS_BYPASS_PATHS.getD [])

/-- The function `validateServiceToken`: false when either expected value is not
configured (falsy), otherwise strict equality of both pairs. -/
def validateServiceToken (env : Env)
    (clientId clientSecret : Option String) : Bool :=
  if !strTruthy env.CF_ACCESS_SERVICE_TOKEN_ID ||
      !strTruthy env.CF_ACCESS_SERVICE_TOKEN_SECRET then
    false
  else
    clientId == env.CF_ACCESS_SERVICE_TOKEN_ID &&
      clientSecret == env.CF_ACCESS_SERVICE_TOKEN_SECRET

/-- An inbound request as seen by the middleware: the path, the header
map, and the attributes the source only ever logs (`requestIp`,
`userIp`). -/
structure Request where
  path : String
  headers : List (String × String)
  requestIp : Option String
  userIp : Option String
deriving DecidableEq

/-- Express `req.get`: case-insensitive header lookup. -/
def Request.get (req : Request) (name : String) : Option String :=
  (req.headers.find? (fun h => jsToLower h.1 == jsToLower name)).map (fun h => h.2)

/-- The identity annotation the middleware attaches to the request context
(`req.cfAccessIdentity`). -/
inductive CfIdentity where
  | serviceToken (clientId : String)
  | jwt (email : Option String) (sub : Option String)
      (iat : Option Nat) (exp : Option Nat)
deriving DecidableEq

/-- The JSON body of a 403 denial. -/
structure DenyBody where
  success : Bool
  error : String
  detail : String
deriving DecidableEq

/-- How the middleware terminates: `next(identity?)` passes the request on
(recording the identity annotation attached, if any), `respond` sends a
status code and a JSON body. -/
inductive MiddlewareResult where
  | next (identity : Option CfIdentity)
  | respond (status : Nat) (body : DenyBody)
deriving DecidableEq

/-- The full observable outcome of one middleware evaluation: the
result, the cache state left behind, the number of outbound JWKS fetches,
the number of `jose.jwtVerify` invocations, the credential headers read,
whether `shouldBypassAuth` was consulted, and whether the signed-assertion
fallback branch was entered. -/
structure MwOut where
  result : MiddlewareResult
  cache : CacheState
  fetchCalls : Nat
  joseCalls : Nat
  headersRead : List String
  bypassChecked : Bool
  assertionBranch : Bool
deriving DecidableEq

/-- Denial body for invalid service-token credentials. -/
def serviceTokenDeniedBody : DenyBody :=
  ⟨false, "Access denied", "Invalid service token credentials."⟩

/-- Denial body for missing authentication headers. -/
def missingCredentialsBody : DenyBody :=
  ⟨false, "Access denied",
    "This application is protected by Cloudflare Access. Please authenticate through Cloudflare Access."⟩

/-- Denial body for a failed JWT verification. -/
def invalidTokenBody : DenyBody :=
  ⟨false, "Access denied", "Invalid or expired Cloudflare Access token."⟩

/-- The middleware `cfAccessMiddleware`: skip when disabled; skip on a bypass path; if
both service-token headers are present (truthy) validate them and either
admit with a service-token identity or deny 403; otherwise fall back to
the `CF-Access-JWT-Assertion` header, denying 403 when it is absent and
otherwise admitting or denying according to
`verifyCloudflareAccessToken`. -/
def cfAccessMiddleware (env : Env) (now : Nat) (fetch : FetchResult)
    (jwtVerify : String → JSONWebKeySet → String → String → Except String JWTPayload)
    (req : Request) (st : CacheState) : MwOut :=
  if !env.CF_ACCESS_ENABLED then
    ⟨.next none, st, 0, 0, [], false, false⟩
  else if shouldBypassAuth env req.path then
    ⟨.next none, st, 0, 0, [], true, false⟩
  else
    let cfAccessClientId := req.get "CF-Access-Client-Id"
    let cfAccessClientSecret := req.get "CF-Access-Client-Secret"
    if strTruthy cfAccessClientId && strTruthy cfAccessClientSecret then
      if validateServiceToken env cfAccessClientId cfAccessClientSecret then
        ⟨.next (some (.serviceToken (cfAccessClientId.getD ""))), st, 0, 0,
          ["CF-Access-Client-Id", "CF-Access-Client-Secret"], true, false⟩
      else
        ⟨.respond 403 serviceTokenDeniedBody, st, 0, 0,
          ["CF-Access-Client-Id", "CF-Access-Client-Secret"], true, false⟩
    else
      let cfAccessJwt := req.get "CF-Access-JWT-Assertion"
      if !strTruthy cfAccessJwt then
        ⟨.respond 403 missingCredentialsBody, st, 0, 0,
          ["CF-Access-Client-Id", "CF-Access-Client-Secret",
            "CF-Access-JWT-Assertion"], true, true⟩
      else
        match verifyCloudflareAccessToken env now fetch jwtVerify
            (cfAccessJwt.getD "") st with
        | (.ok payload, st2, nFetch, nJose) =>
            ⟨.next (some (.jwt payload.email payload.sub payload.iat payload.exp)),
              st2, nFetch, nJose,
              ["CF-Access-Client-Id", "CF-Access-Client-Secret",
                "CF-Access-JWT-Assertion"], true, true⟩
        | (.error _, st2, nFetch, nJose) =>
            ⟨.respond 403 invalidTokenBody, st2, nFetch, nJose,
              ["CF-Access-Client-Id", "CF-Access-Client-Secret",
                "CF-Access-JWT-Assertion"], true, true⟩

/-! ## Concrete fixtures for witnesses and counterexamples -/

/-- An enabled configuration with no team domain and nothing else set. -/
def envNoDomain : Env := ⟨true, none, none, none, none, none⟩

/-- A fully configured enabled environment. -/
def envTeam : Env :=
  ⟨true, some "team", some "aud-tag", none, some "svc-id", some "svc-secret"⟩

/-- A disabled configuration. -/
def envOff : Env := ⟨false, some "team", some "aud-tag", none, none, none⟩

/-- A one-key key set. -/
def jwksK : JSONWebKeySet := ⟨["k1"]⟩

/-- A verifier oracle that always succeeds with a fixed payload. -/
def jvOk : String → JSONWebKeySet → String → String → Except String JWTPayload :=
  fun _ _ _ _ => .ok ⟨some "user at example", some "sub1", some 10, some 20⟩

/-- A verifier oracle that always fails. -/
def jvBad : String → JSONWebKeySet → String → String → Except String JWTPayload :=
  fun _ _ _ _ => .error "signature verification failed"

/-! ## Helper lemmas -/

/-- The rule loop is the boolean disjunction of the per-rule match over the
list. -/
theorem isBypassed_eq_any (path : String) (rules : List String) :
    isBypassed path rules =
      rules.any (fun r =>
        path == r || (jsEndsWith r "*" && jsStartsWith path (r.dropRight 1))) := by
  induction rules with
  | nil => rfl
  | cons r rest ih =>
      simp only [isBypassed, List.any_cons, ← ih]
      cases h1 : (path == r) <;>
        cases h2 : (jsEndsWith r "*" && jsStartsWith path (r.dropRight 1)) <;>
        simp [h1, h2]

/-- If the presented pair does not match the configured pair (or either
configured value is missing), `validateServiceToken` is false. -/
theorem validateServiceToken_eq_false (env : Env) (a b : Option String)
    (h : ¬(strTruthy env.CF_ACCESS_SERVICE_TOKEN_ID = true ∧
          strTruthy env.CF_ACCESS_SERVICE_TOKEN_SECRET = true ∧
          a = env.CF_ACCESS_SERVICE_TOKEN_ID ∧
          b = env.CF_ACCESS_SERVICE_TOKEN_SECRET)) :
    validateServiceToken env a b = false := by
  unfold validateServiceToken
  cases h1 : strTruthy env.CF_ACCESS_SERVICE_TOKEN_ID <;>
    cases h2 : strTruthy env.CF_ACCESS_SERVICE_TOKEN_SECRET <;>
    simp_all

/-- If `strTruthy` holds of an optional string, it is `some` of its
default-unwrapped value. -/
theorem strTruthy_some (o : Option String) (h : strTruthy o = true) :
    o = some (o.getD "") := by
  cases o with
  | none => exact Bool.noConfusion h
  | some s => rfl

/-- Branch equation: disabled gate. -/
theorem cfAccessMiddleware_eq_disabled (env : Env) (now : Nat)
    (fetch : FetchResult)
    (jv : String → JSONWebKeySet → String → String → Except String JWTPayload)
    (req : Request) (st : CacheState)
    (henv : env.CF_ACCESS_ENABLED = false) :
    cfAccessMiddleware env now fetch jv req st =
      ⟨.next none, st, 0, 0, [], false, false⟩ := by
  unfold cfAccessMiddleware
  rw [henv]
  rfl

/-- Branch equation: bypassed path. -/
theorem cfAccessMiddleware_eq_bypassed (env : Env) (now : Nat)
    (fetch : FetchResult)
    (jv : String → JSONWebKeySet → String → String → Except String JWTPayload)
    (req : Request) (st : CacheState)
    (henv : env.CF_ACCESS_ENABLED = true)
    (hb : shouldBypassAuth env req.path = true) :
    cfAccessMiddleware env now fetch jv req st =
      ⟨.next none, st, 0, 0, [], true, false⟩ := by
  unfold cfAccessMiddleware
  rw [henv, hb]
  rfl

/-- Branch equation: valid service token. -/
theorem cfAccessMiddleware_eq_serviceOk (env : Env) (now : Nat)
    (fetch : FetchResult)
    (jv : String → JSONWebKeySet → String → String → Except String JWTPayload)
    (req : Request) (st : CacheState)
    (henv : env.CF_ACCESS_ENABLED = true)
    (hb : shouldBypassAuth env req.path = false)
    (hboth : (strTruthy (req.get "CF-Access-Client-Id") &&
      strTruthy (req.get "CF-Access-Client-Secret")) = true)
    (hval : validateServiceToken env (req.get "CF-Access-Client-Id")
      (req.get "CF-Access-Client-Secret") = true) :
    cfAccessMiddleware env now fetch jv req st =
      ⟨.next (some (.serviceToken ((req.get "CF-Access-Client-Id").getD ""))),
        st, 0, 0, ["CF-Access-Client-Id", "CF-Access-Client-Secret"],
        true, false⟩ := by
  unfold cfAccessMiddleware
  simp [henv, hb, hboth, hval]

/-- Branch equation: invalid service token. -/
theorem cfAccessMiddleware_eq_serviceBad (env : Env) (now : Nat)
    (fetch : FetchResult)
    (jv : String → JSONWebKeySet → String → String → Except String JWTPayload)
    (req : Request) (st : CacheState)
    (henv : env.CF_ACCESS_ENABLED = true)
    (hb : shouldBypassAuth env req.path = false)
    (hboth : (strTruthy (req.get "CF-Access-Client-Id") &&
      strTruthy (req.get "CF-Access-Client-Secret")) = true)
    (hval : validateServiceToken env (req.get "CF-Access-Client-Id")
      (req.get "CF-Access-Client-Secret") = false) :
    cfAccessMiddleware env now fetch jv req st =
      ⟨.respond 403 serviceTokenDeniedBody, st, 0, 0,
        ["CF-Access-Client-Id", "CF-Access-Client-Secret"], true, false⟩ := by
  unfold cfAccessMiddleware
  simp [henv, hb, hboth, hval]

/-- Branch equation: no service-token pair and no assertion header. -/
theorem cfAccessMiddleware_eq_missingJwt (env : Env) (now : Nat)
    (fetch : FetchResult)
    (jv : String → JSONWebKeySet → String → String → Except String JWTPayload)
    (req : Request) (st : CacheState)
    (henv : env.CF_ACCESS_ENABLED = true)
    (hb : shouldBypassAuth env req.path = false)
    (hboth : (strTruthy (req.get "CF-Access-Client-Id") &&
      strTruthy (req.get "CF-Access-Client-Secret")) = false)
    (hjwt : strTruthy (req.get "CF-Access-JWT-Assertion") = false) :
    cfAccessMiddleware env now fetch jv req st =
      ⟨.respond 403 missingCredentialsBody, st, 0, 0,
        ["CF-Access-Client-Id", "CF-Access-Client-Secret",
          "CF-Access-JWT-Assertion"], true, true⟩ := by
  unfold cfAccessMiddleware
  simp [henv, hb, hboth, hjwt]

/-- Branch equation: assertion path with a successful verification. -/
theorem cfAccessMiddleware_eq_jwtOk (env : Env) (now : Nat)
    (fetch : FetchResult)
    (jv : String → JSONWebKeySet → String → String → Except String JWTPayload)
    (req : Request) (st : CacheState)
    (payload : JWTPayload) (st2 : CacheState) (nFetch nJose : Nat)
    (henv : env.CF_ACCESS_ENABLED = true)
    (hb : shouldBypassAuth env req.path = false)
    (hboth : (strTruthy (req.get "CF-Access-Client-Id") &&
      strTruthy (req.get "CF-Access-Client-Secret")) = false)
    (hjwt : strTruthy (req.get "CF-Access-JWT-Assertion") = true)
    (hv : verifyCloudflareAccessToken env now fetch jv
      ((req.get "CF-Access-JWT-Assertion").getD "") st =
      (.ok payload, st2, nFetch, nJose)) :
    cfAccessMiddleware env now fetch jv req st =
      ⟨.next (some (.jwt payload.email payload.sub payload.iat payload.exp)),
        st2, nFetch, nJose,
        ["CF-Access-Client-Id", "CF-Access-Client-Secret",
          "CF-Access-JWT-Assertion"], true, true⟩ := by
  unfold cfAccessMiddleware
  simp only [henv, hb, hboth, hjwt, Bool.not_true, Bool.false_eq_true,
    if_false, if_true, Bool.not_false, Bool.true_eq_false]
  rw [hv]

/-- Branch equation: assertion path with a failed verification. -/
theorem cfAccessMiddleware_eq_jwtErr (env : Env) (now : Nat)
    (fetch : FetchResult)
    (jv : String → JSONWebKeySet → String → String → Except String JWTPayload)
    (req : Request) (st : CacheState)
    (e : VerifyError) (st2 : CacheState) (nFetch nJose : Nat)
    (henv : env.CF_ACCESS_ENABLED = true)
    (hb : shouldBypassAuth env req.path = false)
    (hboth : (strTruthy (req.get "CF-Access-Client-Id") &&
      strTruthy (req.get "CF-Access-Client-Secret")) = false)
    (hjwt : strTruthy (req.get "CF-Access-JWT-Assertion") = true)
    (hv : verifyCloudflareAccessToken env now fetch jv
      ((req.get "CF-Access-JWT-Assertion").getD "") st =
      (.error e, st2, nFetch, nJose)) :
    cfAccessMiddleware env now fetch jv req st =
      ⟨.respond 403 invalidTokenBody, st2, nFetch, nJose,
        ["CF-Access-Client-Id", "CF-Access-Client-Secret",
          "CF-Access-JWT-Assertion"], true, true⟩ := by
  unfold cfAccessMiddleware
  simp only [henv, hb, hboth, hjwt, Bool.not_true, Bool.false_eq_true,
    if_false, if_true, Bool.not_false, Bool.true_eq_false]
  rw [hv]

/-! ## Claim theorems -/

/-- C5: `isBypassed path rules` is true exactly when some rule matches,
where a rule matches by exact string equality or, when it ends in the
wildcard marker, when the path starts with the rule with the trailing
marker stripped; moreover the rule list `["/health/*"]` matches
`"/health/"` and `"/health/live"` but not `"/healthy"`, and the empty
rule list never matches. -/
theorem isBypassed_characterization :
    (∀ path rules, isBypassed path rules = true ↔
      ∃ r ∈ rules, (path = r ∨
        (jsEndsWith r "*" = true ∧ jsStartsWith path (r.dropRight 1) = true))) ∧
    isBypassed "/health/" ["/health/*"] = true ∧
    isBypassed "/health/live" ["/health/*"] = true ∧
    isBypassed "/healthy" ["/health/*"] = false ∧
    (∀ path, isBypassed path [] = false) := by
  refine ⟨?_, by decide, by decide, by decide, fun _ => rfl⟩
  intro path rules
  rw [isBypassed_eq_any]
  simp [List.any_eq_true]

/-- Witness for C5: the rule `"/api/v1/health"` admits the exact path
`"/api/v1/health"`. -/
theorem isBypassed_characterization_witness :
    ∃ r ∈ ["/api/v1/health"], ("/api/v1/health" = r ∨
      (jsEndsWith r "*" = true ∧
        jsStartsWith "/api/v1/health" (r.dropRight 1) = true)) :=
  (isBypassed_characterization.1 "/api/v1/health" ["/api/v1/health"]).mp
    (by decide)

/-- C6: `isBypassed` is invariant under permutation of the rule list. -/
theorem isBypassed_perm_invariant :
    ∀ (path : String) (l1 l2 : List String), l1.Perm l2 →
      isBypassed path l1 = isBypassed path l2 := by
  intro path l1 l2 h
  rw [isBypassed_eq_any, isBypassed_eq_any]
  induction h with
  | nil => rfl
  | cons x _ ih => simp [List.any_cons, ih]
  | swap x y l => simp [List.any_cons, Bool.or_left_comm]
  | trans _ _ ih1 ih2 => exact ih1.trans ih2

/-- Witness for C6: swapping two rules leaves the outcome unchanged. -/
theorem isBypassed_perm_invariant_witness :
    isBypassed "/a" ["/a", "/b"] = isBypassed "/a" ["/b", "/a"] :=
  isBypassed_perm_invariant "/a" ["/a", "/b"] ["/b", "/a"]
    (List.Perm.swap "/b" "/a" [])

/-- C3 counterexample: with the team domain unconfigured and an empty
cache, `getCloudflareJWKS` is in the non-cached case yet performs zero
fetch attempts (it throws the configuration error before fetching),
refuting that every non-cache-hit call makes exactly one fetch attempt. -/
theorem getCloudflareJWKS_zeroFetch_counterexample :
    (⟨none, 0⟩ : CacheState).cachedJWKS = none ∧
    (getCloudflareJWKS envNoDomain 0 (.success jwksK) ⟨none, 0⟩).2.2 ≠ 1 ∧
    (getCloudflareJWKS envNoDomain 0 (.success jwksK) ⟨none, 0⟩).1 =
      .error .teamDomainNotConfigured := by
  refine ⟨rfl, ?_, rfl⟩
  decide

/-- C3 (amended): a cached key set younger than the TTL is returned with
zero network calls and an unchanged cache; otherwise, provided the team
domain is configured, exactly one fetch attempt is made. In particular a
set fetched at time T is served without network access for every call at
time t with T ≤ t < T + 3600000 ms, and a call at or after
T + 3600000 ms with the domain configured makes exactly one fetch
attempt. -/
theorem getCloudflareJWKS_cache_behavior :
    ∀ (env : Env) (now : Nat) (fetch : FetchResult) (st : CacheState),
    (∀ jwks, st.cachedJWKS = some jwks → now - st.jwksCacheTime < JWKS_CACHE_TTL →
      getCloudflareJWKS env now fetch st = (.ok jwks, st, 0)) ∧
    ((st.cachedJWKS = none ∨ JWKS_CACHE_TTL ≤ now - st.jwksCacheTime) →
      strTruthy env.CF_ACCESS_TEAM_DOMAIN = true →
      (getCloudflareJWKS env now fetch st).2.2 = 1) ∧
    (∀ jwks T t, T ≤ t → t < T + JWKS_CACHE_TTL →
      getCloudflareJWKS env t fetch ⟨some jwks, T⟩ = (.ok jwks, ⟨some jwks, T⟩, 0)) ∧
    (∀ jwks T t, T + JWKS_CACHE_TTL ≤ t →
      strTruthy env.CF_ACCESS_TEAM_DOMAIN = true →
      (getCloudflareJWKS env t fetch ⟨some jwks, T⟩).2.2 = 1) := by
  intro env now fetch st
  have fetchOne : ∀ (n : Nat) (s : CacheState),
      strTruthy env.CF_ACCESS_TEAM_DOMAIN = true →
      (getCloudflareJWKSFetch env n fetch s).2.2 = 1 := by
    intro n s ht
    unfold getCloudflareJWKSFetch
    rw [ht]
    cases fetch <;> rfl
  refine ⟨?_, ?_, ?_, ?_⟩
  · intro jwks hc hlt
    unfold getCloudflareJWKS
    rw [hc]
    simp [hlt]
  · intro hstale ht
    unfold getCloudflareJWKS
    cases hc : st.cachedJWKS with
    | none => exact fetchOne now st ht
    | some jwks =>
        rcases hstale with hnone | hle
        · rw [hc] at hnone; exact absurd hnone (by simp)
        · have : ¬(now - st.jwksCacheTime < JWKS_CACHE_TTL) := Nat.not_lt.mpr hle
          simp only [this, if_false]
          exact fetchOne now st ht
  · intro jwks T t hTt hlt
    unfold getCloudflareJWKS
    have : t - T < JWKS_CACHE_TTL := by omega
    simp [this]
  · intro jwks T t hge ht
    unfold getCloudflareJWKS
    have : ¬(t - T < JWKS_CACHE_TTL) := by omega
    simp only [this, if_false]
    exact fetchOne t ⟨some jwks, T⟩ ht

/-- Witness for C3 (amended): a set fetched at time 0 is still served from
cache at time 3599999 ms with zero fetches, and a call at time 3600000 ms
with a configured domain performs one fetch attempt. -/
theorem getCloudflareJWKS_cache_behavior_witness :
    getCloudflareJWKS envTeam 3599999 (.networkError "down") ⟨some jwksK, 0⟩ =
      (.ok jwksK, ⟨some jwksK, 0⟩, 0) ∧
    (getCloudflareJWKS envTeam 3600000 (.networkError "down")
      ⟨some jwksK, 0⟩).2.2 = 1 :=
  ⟨(getCloudflareJWKS_cache_behavior envTeam 3599999 (.networkError "down")
      ⟨some jwksK, 0⟩).2.2.1 jwksK 0 3599999 (by decide) (by decide),
   (getCloudflareJWKS_cache_behavior envTeam 3600000 (.networkError "down")
      ⟨some jwksK, 0⟩).2.2.2 jwksK 0 3600000 (by decide) (by decide)⟩

/-- C4: when the call reaches the network and the fetch fails, the cache
state is left unchanged and a fetch error is propagated; and a stale
cached entry is never served — once the entry is stale, an `ok` result
can only be the freshly fetched set, and every stale call either errors
or performs a fetch. -/
theorem getCloudflareJWKS_failure_behavior :
    ∀ (env : Env) (now : Nat) (fetch : FetchResult) (st : CacheState),
    ((st.cachedJWKS = none ∨ JWKS_CACHE_TTL ≤ now - st.jwksCacheTime) →
      strTruthy env.CF_ACCESS_TEAM_DOMAIN = true →
      fetch.isFailure = true →
      ∃ e, getCloudflareJWKS env now fetch st = (.error e, st, 1) ∧
        e.isFetchError = true) ∧
    (∀ jwks, st.cachedJWKS = some jwks → JWKS_CACHE_TTL ≤ now - st.jwksCacheTime →
      (∀ k, (getCloudflareJWKS env now fetch st).1 = .ok k → fetch = .success k) ∧
      ((∃ e, (getCloudflareJWKS env now fetch st).1 = .error e) ∨
        (getCloudflareJWKS env now fetch st).2.2 = 1)) := by
  intro env now fetch st
  have hfetch : ∀ (s : CacheState),
      strTruthy env.CF_ACCESS_TEAM_DOMAIN = true →
      fetch.isFailure = true →
      ∃ e, getCloudflareJWKSFetch env now fetch s = (.error e, s, 1) ∧
        e.isFetchError = true := by
    intro s ht hf
    unfold getCloudflareJWKSFetch
    rw [ht]
    cases fetch with
    | success jwks => exact Bool.noConfusion hf
    | httpError a b => exact ⟨.httpError a b, rfl, rfl⟩
    | networkError m => exact ⟨.networkError m, rfl, rfl⟩
    | malformedBody m => exact ⟨.malformedBody m, rfl, rfl⟩
  have hstaleEq : ∀ jwks, st.cachedJWKS = some jwks →
      JWKS_CACHE_TTL ≤ now - st.jwksCacheTime →
      getCloudflareJWKS env now fetch st = getCloudflareJWKSFetch env now fetch st := by
    intro jwks hc hle
    unfold getCloudflareJWKS
    rw [hc]
    simp [Nat.not_lt.mpr hle]
  refine ⟨?_, ?_⟩
  · intro hstale ht hf
    rcases hstale with hnone | hle
    · have : getCloudflareJWKS env now fetch st = getCloudflareJWKSFetch env now fetch st := by
        unfold getCloudflareJWKS; rw [hnone]
      rw [this]; exact hfetch st ht hf
    · cases hc : st.cachedJWKS with
      | none =>
          have : getCloudflareJWKS env now fetch st = getCloudflareJWKSFetch env now fetch st := by
            unfold getCloudflareJWKS; rw [hc]
          rw [this]; exact hfetch st ht hf
      | some jwks =>
          rw [hstaleEq jwks hc hle]; exact hfetch st ht hf
  · intro jwks hc hle
    rw [hstaleEq jwks hc hle]
    unfold getCloudflareJWKSFetch
    cases ht : strTruthy env.CF_ACCESS_TEAM_DOMAIN with
    | false =>
        refine ⟨?_, Or.inl ⟨.teamDomainNotConfigured, ?_⟩⟩ <;> simp [ht]
    | true =>
        cases fetch with
        | success j =>
            refine ⟨?_, Or.inr rfl⟩
            intro k hk
            simp at hk
            rw [hk]
        | httpError a b => exact ⟨by intro k hk; simp at hk, Or.inr rfl⟩
        | networkError m => exact ⟨by intro k hk; simp at hk, Or.inr rfl⟩
        | malformedBody m => exact ⟨by intro k hk; simp at hk, Or.inr rfl⟩

/-- Witness for C4: a stale entry plus a failing fetch yields a
propagated fetch error with the cache untouched. -/
theorem getCloudflareJWKS_failure_behavior_witness :
    ∃ e, getCloudflareJWKS envTeam 3600000 (.networkError "down")
        ⟨some jwksK, 0⟩ = (.error e, ⟨some jwksK, 0⟩, 1) ∧
      e.isFetchError = true :=
  (getCloudflareJWKS_failure_behavior envTeam 3600000 (.networkError "down")
      ⟨some jwksK, 0⟩).1 (Or.inr (by decide)) (by decide) (by decide)

/-- C7: when `CF_ACCESS_ENABLED` is false every request is passed through
with no identity annotation, the cache is untouched, and no path
matching, header reading, fetching, or verification happens. -/
theorem cfAccessMiddleware_disabled :
    ∀ (env : Env) (now : Nat) (fetch : FetchResult)
      (jv : String → JSONWebKeySet → String → String → Except String JWTPayload)
      (req : Request) (st : CacheState),
    env.CF_ACCESS_ENABLED = false →
    cfAccessMiddleware env now fetch jv req st =
      ⟨.next none, st, 0, 0, [], false, false⟩ := by
  intro env now fetch jv req st h
  unfold cfAccessMiddleware
  rw [h]
  rfl

/-- Witness for C7: a disabled gate admits a request carrying invalid
service-token headers and no assertion, touching nothing. -/
theorem cfAccessMiddleware_disabled_witness :
    cfAccessMiddleware envOff 5 (.networkError "down") jvBad
      ⟨"/secure", [("CF-Access-Client-Id", "bogus"),
        ("CF-Access-Client-Secret", "bogus")], none, none⟩ ⟨none, 0⟩ =
      ⟨.next none, ⟨none, 0⟩, 0, 0, [], false, false⟩ :=
  cfAccessMiddleware_disabled envOff 5 (.networkError "down") jvBad
    ⟨"/secure", [("CF-Access-Client-Id", "bogus"),
      ("CF-Access-Client-Secret", "bogus")], none, none⟩ ⟨none, 0⟩ rfl

/-- C1: when the gate is active on the path and both service-token
headers are present, a pair that does not match the configured expected
values — or a missing configured value — yields the 403 service-token
denial, with the cache untouched, no fetch, no verifier invocation, and
the signed-assertion branch never entered (even if a valid assertion
header is also present). -/
theorem serviceToken_mismatch_denies :
    ∀ (env : Env) (now : Nat) (fetch : FetchResult)
      (jv : String → JSONWebKeySet → String → String → Except String JWTPayload)
      (req : Request) (st : CacheState),
    env.CF_ACCESS_ENABLED = true →
    shouldBypassAuth env req.path = false →
    strTruthy (req.get "CF-Access-Client-Id") = true →
    strTruthy (req.get "CF-Access-Client-Secret") = true →
    ¬(strTruthy env.CF_ACCESS_SERVICE_TOKEN_ID = true ∧
      strTruthy env.CF_ACCESS_SERVICE_TOKEN_SECRET = true ∧
      req.get "CF-Access-Client-Id" = env.CF_ACCESS_SERVICE_TOKEN_ID ∧
      req.get "CF-Access-Client-Secret" = env.CF_ACCESS_SERVICE_TOKEN_SECRET) →
    cfAccessMiddleware env now fetch jv req st =
      ⟨.respond 403 serviceTokenDeniedBody, st, 0, 0,
        ["CF-Access-Client-Id", "CF-Access-Client-Secret"], true, false⟩ := by
  intro env now fetch jv req st henv hb h1 h2 hmm
  have hval := validateServiceToken_eq_false env
    (req.get "CF-Access-Client-Id") (req.get "CF-Access-Client-Secret") hmm
  unfold cfAccessMiddleware
  simp [henv, hb, h1, h2, hval]

/-- Witness for C1: wrong client secret, valid assertion also present,
still the service-token 403 with zero verifier activity. -/
theorem serviceToken_mismatch_denies_witness :
    cfAccessMiddleware envTeam 0 (.success jwksK) jvOk
      ⟨"/secure", [("CF-Access-Client-Id", "svc-id"),
        ("CF-Access-Client-Secret", "wrong"),
        ("CF-Access-JWT-Assertion", "tok")], none, none⟩ ⟨none, 0⟩ =
      ⟨.respond 403 serviceTokenDeniedBody, ⟨none, 0⟩, 0, 0,
        ["CF-Access-Client-Id", "CF-Access-Client-Secret"], true, false⟩ :=
  serviceToken_mismatch_denies envTeam 0 (.success jwksK) jvOk
    ⟨"/secure", [("CF-Access-Client-Id", "svc-id"),
      ("CF-Access-Client-Secret", "wrong"),
      ("CF-Access-JWT-Assertion", "tok")], none, none⟩ ⟨none, 0⟩
    rfl rfl (by decide) (by decide) (by decide)

/-- C2 counterexample: a request presenting a client-id header but no
client-secret header falls through to the signed-assertion branch — the
assertion header is inspected, the verifier runs, and the request is
even admitted with a JWT identity — refuting that the assertion branch
is unreachable whenever a service-token header is present. -/
theorem assertionBranch_reached_counterexample :
    (Request.get ⟨"/secure", [("CF-Access-Client-Id", "svc-id"),
        ("CF-Access-JWT-Assertion", "tok")], none, none⟩
      "CF-Access-Client-Id" = some "svc-id") ∧
    (cfAccessMiddleware envTeam 0 (.success jwksK) jvOk
      ⟨"/secure", [("CF-Access-Client-Id", "svc-id"),
        ("CF-Access-JWT-Assertion", "tok")], none, none⟩
      ⟨none, 0⟩).assertionBranch = true ∧
    (cfAccessMiddleware envTeam 0 (.success jwksK) jvOk
      ⟨"/secure", [("CF-Access-Client-Id", "svc-id"),
        ("CF-Access-JWT-Assertion", "tok")], none, none⟩
      ⟨none, 0⟩).joseCalls = 1 ∧
    (cfAccessMiddleware envTeam 0 (.success jwksK) jvOk
      ⟨"/secure", [("CF-Access-Client-Id", "svc-id"),
        ("CF-Access-JWT-Assertion", "tok")], none, none⟩
      ⟨none, 0⟩).result =
      .next (some (.jwt (some "user at example") (some "sub1")
        (some 10) (some 20))) := by
  refine ⟨by decide, ?_, ?_, ?_⟩ <;> decide

/-- C2 (amended): the signed-assertion branch is unreachable whenever
both service-token headers are present: such a request never has its
assertion header inspected and never invokes the verifier. -/
theorem bothServiceHeaders_skip_assertion :
    ∀ (env : Env) (now : Nat) (fetch : FetchResult)
      (jv : String → JSONWebKeySet → String → String → Except String JWTPayload)
      (req : Request) (st : CacheState),
    strTruthy (req.get "CF-Access-Client-Id") = true →
    strTruthy (req.get "CF-Access-Client-Secret") = true →
    (cfAccessMiddleware env now fetch jv req st).assertionBranch = false ∧
    (cfAccessMiddleware env now fetch jv req st).joseCalls = 0 ∧
    (cfAccessMiddleware env now fetch jv req st).fetchCalls = 0 := by
  intro env now fetch jv req st h1 h2
  unfold cfAccessMiddleware
  cases henv : env.CF_ACCESS_ENABLED with
  | false => exact ⟨rfl, rfl, rfl⟩
  | true =>
      cases hb : shouldBypassAuth env req.path with
      | true => simp
      | false =>
          simp only [h1, h2, Bool.and_self, if_true, Bool.not_true,
            Bool.false_eq_true, if_false]
          cases hv : validateServiceToken env (req.get "CF-Access-Client-Id")
            (req.get "CF-Access-Client-Secret") <;> simp

/-- Witness for C2 (amended): both service headers present (with wrong
values): no assertion inspection, no verifier call, no fetch. -/
theorem bothServiceHeaders_skip_assertion_witness :
    (cfAccessMiddleware envTeam 0 (.success jwksK) jvOk
      ⟨"/secure", [("CF-Access-Client-Id", "a"),
        ("CF-Access-Client-Secret", "b"),
        ("CF-Access-JWT-Assertion", "tok")], none, none⟩
      ⟨none, 0⟩).assertionBranch = false ∧
    (cfAccessMiddleware envTeam 0 (.success jwksK) jvOk
      ⟨"/secure", [("CF-Access-Client-Id", "a"),
        ("CF-Access-Client-Secret", "b"),
        ("CF-Access-JWT-Assertion", "tok")], none, none⟩
      ⟨none, 0⟩).joseCalls = 0 ∧
    (cfAccessMiddleware envTeam 0 (.success jwksK) jvOk
      ⟨"/secure", [("CF-Access-Client-Id", "a"),
        ("CF-Access-Client-Secret", "b"),
        ("CF-Access-JWT-Assertion", "tok")], none, none⟩
      ⟨none, 0⟩).fetchCalls = 0 :=
  bothServiceHeaders_skip_assertion envTeam 0 (.success jwksK) jvOk
    ⟨"/secure", [("CF-Access-Client-Id", "a"),
      ("CF-Access-Client-Secret", "b"),
      ("CF-Access-JWT-Assertion", "tok")], none, none⟩
    ⟨none, 0⟩ (by decide) (by decide)

/-- C8: the gate is fail-closed on the assertion path. With the gate
active and no service-token pair presented: a pass-through can only
happen after a successful verification; any error from the verification
pipeline (missing issuer or audience configuration, key-fetch failure,
or a failed check inside the verifier) produces the 403 invalid-token
response; a missing assertion header produces the 403
missing-credentials response; and every denial body carries
`success = false`. -/
theorem cfAccessMiddleware_fail_closed :
    ∀ (env : Env) (now : Nat) (fetch : FetchResult)
      (jv : String → JSONWebKeySet → String → String → Except String JWTPayload)
      (req : Request) (st : CacheState),
    env.CF_ACCESS_ENABLED = true →
    shouldBypassAuth env req.path = false →
    (strTruthy (req.get "CF-Access-Client-Id") &&
      strTruthy (req.get "CF-Access-Client-Secret")) = false →
    ((∀ ident, (cfAccessMiddleware env now fetch jv req st).result = .next ident →
        strTruthy (req.get "CF-Access-JWT-Assertion") = true ∧
        ∃ payload rest, verifyCloudflareAccessToken env now fetch jv
          ((req.get "CF-Access-JWT-Assertion").getD "") st =
          (.ok payload, rest)) ∧
     (∀ e rest, strTruthy (req.get "CF-Access-JWT-Assertion") = true →
        verifyCloudflareAccessToken env now fetch jv
          ((req.get "CF-Access-JWT-Assertion").getD "") st = (.error e, rest) →
        (cfAccessMiddleware env now fetch jv req st).result =
          .respond 403 invalidTokenBody) ∧
     (strTruthy (req.get "CF-Access-JWT-Assertion") = false →
        (cfAccessMiddleware env now fetch jv req st).result =
          .respond 403 missingCredentialsBody) ∧
     missingCredentialsBody.success = false ∧
     invalidTokenBody.success = false ∧
     serviceTokenDeniedBody.success = false) := by
  intro env now fetch jv req st henv hb hboth
  refine ⟨?_, ?_, ?_, rfl, rfl, rfl⟩
  · intro ident hid
    cases hjwt : strTruthy (req.get "CF-Access-JWT-Assertion") with
    | false =>
        rw [cfAccessMiddleware_eq_missingJwt env now fetch jv req st
          henv hb hboth hjwt] at hid
        exact MiddlewareResult.noConfusion hid
    | true =>
        refine ⟨rfl, ?_⟩
        rcases hv : verifyCloudflareAccessToken env now fetch jv
            ((req.get "CF-Access-JWT-Assertion").getD "") st with ⟨r, st2, nF, nJ⟩
        cases r with
        | ok payload => exact ⟨payload, (st2, nF, nJ), rfl⟩
        | error e =>
            rw [cfAccessMiddleware_eq_jwtErr env now fetch jv req st
              e st2 nF nJ henv hb hboth hjwt hv] at hid
            exact MiddlewareResult.noConfusion hid
  · intro e rest hjwt hv
    rcases rest with ⟨st2, nF, nJ⟩
    rw [cfAccessMiddleware_eq_jwtErr env now fetch jv req st
      e st2 nF nJ henv hb hboth hjwt hv]
  · intro hjwt
    rw [cfAccessMiddleware_eq_missingJwt env now fetch jv req st
      henv hb hboth hjwt]

/-- Witness for C8: an unreachable key endpoint (network error on the
JWKS fetch) yields the 403 invalid-token denial, not an admission. -/
theorem cfAccessMiddleware_fail_closed_witness :
    (cfAccessMiddleware envTeam 0 (.networkError "down") jvOk
      ⟨"/secure", [("CF-Access-JWT-Assertion", "tok")], none, none⟩
      ⟨none, 0⟩).result = .respond 403 invalidTokenBody :=
  (cfAccessMiddleware_fail_closed envTeam 0 (.networkError "down") jvOk
    ⟨"/secure", [("CF-Access-JWT-Assertion", "tok")], none, none⟩
    ⟨none, 0⟩ rfl rfl (by decide)).2.1
    (.jwksError (.networkError "down")) (⟨none, 0⟩, 1, 0) (by decide) rfl

/-- C9: an identity annotation is attached exactly on credentialed
admissions. Disabled and bypassed admissions pass the request through
with no annotation; a pass-through with no annotation happens only in
those two states; an annotated pass-through is either a service-token
identity carrying the presented client id (with the pair validated) or a
JWT identity carrying the verified payload claims; and each credentialed
success attaches its corresponding annotation. -/
theorem cfAccessMiddleware_identity_iff :
    ∀ (env : Env) (now : Nat) (fetch : FetchResult)
      (jv : String → JSONWebKeySet → String → String → Except String JWTPayload)
      (req : Request) (st : CacheState),
    (env.CF_ACCESS_ENABLED = false →
      (cfAccessMiddleware env now fetch jv req st).result = .next none) ∧
    (env.CF_ACCESS_ENABLED = true → shouldBypassAuth env req.path = true →
      (cfAccessMiddleware env now fetch jv req st).result = .next none) ∧
    ((cfAccessMiddleware env now fetch jv req st).result = .next none ↔
      (env.CF_ACCESS_ENABLED = false ∨
        (env.CF_ACCESS_ENABLED = true ∧ shouldBypassAuth env req.path = true))) ∧
    (∀ ident, (cfAccessMiddleware env now fetch jv req st).result =
        .next (some ident) →
      env.CF_ACCESS_ENABLED = true ∧ shouldBypassAuth env req.path = false ∧
      ((∃ c, ident = .serviceToken c ∧
          req.get "CF-Access-Client-Id" = some c ∧
          validateServiceToken env (req.get "CF-Access-Client-Id")
            (req.get "CF-Access-Client-Secret") = true) ∨
       (∃ payload rest,
          ident = .jwt payload.email payload.sub payload.iat payload.exp ∧
          verifyCloudflareAccessToken env now fetch jv
            ((req.get "CF-Access-JWT-Assertion").getD "") st =
            (.ok payload, rest)))) ∧
    (env.CF_ACCESS_ENABLED = true → shouldBypassAuth env req.path = false →
      (strTruthy (req.get "CF-Access-Client-Id") &&
        strTruthy (req.get "CF-Access-Client-Secret")) = true →
      validateServiceToken env (req.get "CF-Access-Client-Id")
        (req.get "CF-Access-Client-Secret") = true →
      (cfAccessMiddleware env now fetch jv req st).result =
        .next (some (.serviceToken
          ((req.get "CF-Access-Client-Id").getD "")))) ∧
    (∀ payload rest, env.CF_ACCESS_ENABLED = true →
      shouldBypassAuth env req.path = false →
      (strTruthy (req.get "CF-Access-Client-Id") &&
        strTruthy (req.get "CF-Access-Client-Secret")) = false →
      strTruthy (req.get "CF-Access-JWT-Assertion") = true →
      verifyCloudflareAccessToken env now fetch jv
        ((req.get "CF-Access-JWT-Assertion").getD "") st =
        (.ok payload, rest) →
      (cfAccessMiddleware env now fetch jv req st).result =
        .next (some (.jwt payload.email payload.sub payload.iat
          payload.exp))) := by
  intro env now fetch jv req st
  refine ⟨?_, ?_, ?_, ?_, ?_, ?_⟩
  · intro henv
    rw [cfAccessMiddleware_eq_disabled env now fetch jv req st henv]
  · intro henv hb
    rw [cfAccessMiddleware_eq_bypassed env now fetch jv req st henv hb]
  · constructor
    · intro hnone
      cases henv : env.CF_ACCESS_ENABLED with
      | false => exact Or.inl rfl
      | true =>
          cases hb : shouldBypassAuth env req.path with
          | true => exact Or.inr ⟨rfl, rfl⟩
          | false =>
              exfalso
              cases hboth : (strTruthy (req.get "CF-Access-Client-Id") &&
                  strTruthy (req.get "CF-Access-Client-Secret")) with
              | true =>
                  cases hval : validateServiceToken env
                      (req.get "CF-Access-Client-Id")
                      (req.get "CF-Access-Client-Secret") with
                  | true =>
                      rw [cfAccessMiddleware_eq_serviceOk env now fetch jv req st
                        henv hb hboth hval] at hnone
                      simp at hnone
                  | false =>
                      rw [cfAccessMiddleware_eq_serviceBad env now fetch jv req st
                        henv hb hboth hval] at hnone
                      exact MiddlewareResult.noConfusion hnone
              | false =>
                  cases hjwt : strTruthy (req.get "CF-Access-JWT-Assertion") with
                  | false =>
                      rw [cfAccessMiddleware_eq_missingJwt env now fetch jv req st
                        henv hb hboth hjwt] at hnone
                      exact MiddlewareResult.noConfusion hnone
                  | true =>
                      rcases hv : verifyCloudflareAccessToken env now fetch jv
                          ((req.get "CF-Access-JWT-Assertion").getD "") st with
                        ⟨r, st2, nF, nJ⟩
                      cases r with
                      | ok payload =>
                          rw [cfAccessMiddleware_eq_jwtOk env now fetch jv req st
                            payload st2 nF nJ henv hb hboth hjwt hv] at hnone
                          simp at hnone
                      | error e =>
                          rw [cfAccessMiddleware_eq_jwtErr env now fetch jv req st
                            e st2 nF nJ henv hb hboth hjwt hv] at hnone
                          exact MiddlewareResult.noConfusion hnone
    · rintro (henv | ⟨henv, hb⟩)
      · rw [cfAccessMiddleware_eq_disabled env now fetch jv req st henv]
      · rw [cfAccessMiddleware_eq_bypassed env now fetch jv req st henv hb]
  · intro ident hid
    cases henv : env.CF_ACCESS_ENABLED with
    | false =>
        rw [cfAccessMiddleware_eq_disabled env now fetch jv req st henv] at hid
        simp at hid
    | true =>
        cases hb : shouldBypassAuth env req.path with
        | true =>
            rw [cfAccessMiddleware_eq_bypassed env now fetch jv req st henv hb]
              at hid
            simp at hid
        | false =>
            refine ⟨rfl, rfl, ?_⟩
            cases hboth : (strTruthy (req.get "CF-Access-Client-Id") &&
                strTruthy (req.get "CF-Access-Client-Secret")) with
            | true =>
                cases hval : validateServiceToken env
                    (req.get "CF-Access-Client-Id")
                    (req.get "CF-Access-Client-Secret") with
                | true =>
                    rw [cfAccessMiddleware_eq_serviceOk env now fetch jv req st
                      henv hb hboth hval] at hid
                    simp only [MiddlewareResult.next.injEq, Option.some.injEq]
                      at hid
                    refine Or.inl ⟨(req.get "CF-Access-Client-Id").getD "",
                      hid.symm, ?_, rfl⟩
                    exact strTruthy_some _ (Bool.and_elim_left hboth)
                | false =>
                    rw [cfAccessMiddleware_eq_serviceBad env now fetch jv req st
                      henv hb hboth hval] at hid
                    exact MiddlewareResult.noConfusion hid
            | false =>
                cases hjwt : strTruthy (req.get "CF-Access-JWT-Assertion") with
                | false =>
                    rw [cfAccessMiddleware_eq_missingJwt env now fetch jv req st
                      henv hb hboth hjwt] at hid
                    exact MiddlewareResult.noConfusion hid
                | true =>
                    rcases hv : verifyCloudflareAccessToken env now fetch jv
                        ((req.get "CF-Access-JWT-Assertion").getD "") st with
                      ⟨r, st2, nF, nJ⟩
                    cases r with
                    | ok payload =>
                        rw [cfAccessMiddleware_eq_jwtOk env now fetch jv req st
                          payload st2 nF nJ henv hb hboth hjwt hv] at hid
                        simp only [MiddlewareResult.next.injEq,
                          Option.some.injEq] at hid
                        exact Or.inr ⟨payload, (st2, nF, nJ), hid.symm, rfl⟩
                    | error e =>
                        rw [cfAccessMiddleware_eq_jwtErr env now fetch jv req st
                          e st2 nF nJ henv hb hboth hjwt hv] at hid
                        exact MiddlewareResult.noConfusion hid
  · intro henv hb hboth hval
    rw [cfAccessMiddleware_eq_serviceOk env now fetch jv req st
      henv hb hboth hval]
  · intro payload rest henv hb hboth hjwt hv
    rcases rest with ⟨st2, nF, nJ⟩
    rw [cfAccessMiddleware_eq_jwtOk env now fetch jv req st
      payload st2 nF nJ henv hb hboth hjwt hv]

/-- Witness for C9: a correct service-token pair is admitted with the
service-token identity carrying the presented client id. -/
theorem cfAccessMiddleware_identity_iff_witness :
    (cfAccessMiddleware envTeam 0 (.success jwksK) jvOk
      ⟨"/secure", [("CF-Access-Client-Id", "svc-id"),
        ("CF-Access-Client-Secret", "svc-secret")], none, none⟩
      ⟨none, 0⟩).result = .next (some (.serviceToken "svc-id")) :=
  (cfAccessMiddleware_identity_iff envTeam 0 (.success jwksK) jvOk
    ⟨"/secure", [("CF-Access-Client-Id", "svc-id"),
      ("CF-Access-Client-Secret", "svc-secret")], none, none⟩
    ⟨none, 0⟩).2.2.2.2.1 rfl rfl (by decide) (by decide)

/-- C10: the middleware outcome (decision, annotation, cache effect,
and call counts) depends on the request only through its path and its
three credential headers: two requests agreeing on those four
projections produce identical outcomes, whatever their other headers or
attributes. -/
theorem cfAccessMiddleware_header_dependence :
    ∀ (env : Env) (now : Nat) (fetch : FetchResult)
      (jv : String → JSONWebKeySet → String → String → Except String JWTPayload)
      (st : CacheState) (req1 req2 : Request),
    req1.path = req2.path →
    req1.get "CF-Access-Client-Id" = req2.get "CF-Access-Client-Id" →
    req1.get "CF-Access-Client-Secret" = req2.get "CF-Access-Client-Secret" →
    req1.get "CF-Access-JWT-Assertion" = req2.get "CF-Access-JWT-Assertion" →
    cfAccessMiddleware env now fetch jv req1 st =
      cfAccessMiddleware env now fetch jv req2 st := by
  intro env now fetch jv st req1 req2 hpath hcid hcsec hjwt
  unfold cfAccessMiddleware
  rw [hpath, hcid, hcsec, hjwt]

/-- Witness for C10: two requests with the same credentials but
different auxiliary headers and client addresses get the same outcome. -/
theorem cfAccessMiddleware_header_dependence_witness :
    cfAccessMiddleware envTeam 0 (.success jwksK) jvOk
      ⟨"/secure", [("X-Forwarded-For", "1.2.3.4"),
        ("CF-Access-JWT-Assertion", "tok")], some "1.1.1.1", none⟩
      ⟨none, 0⟩ =
    cfAccessMiddleware envTeam 0 (.success jwksK) jvOk
      ⟨"/secure", [("CF-Access-JWT-Assertion", "tok"),
        ("Accept", "text")], none, some "2.2.2.2"⟩
      ⟨none, 0⟩ :=
  cfAccessMiddleware_header_dependence envTeam 0 (.success jwksK) jvOk
    ⟨none, 0⟩
    ⟨"/secure", [("X-Forwarded-For", "1.2.3.4"),
      ("CF-Access-JWT-Assertion", "tok")], some "1.1.1.1", none⟩
    ⟨"/secure", [("CF-Access-JWT-Assertion", "tok"),
      ("Accept", "text")], none, some "2.2.2.2"⟩
    rfl (by decide) (by decide) (by decide)

end CfAccess
